import Mathlib

/-!
Verification development for the ODK-X database migrator
(`src/migrator.py` and its configuration in `config/schema_config.py`).

The Python source is shallowly embedded: SQLite databases become explicit
structures of tables and rows, values arriving from SQLite become the
inductive `PyVal`, the `json` standard-library calls used by the migrator
(`json.dumps` on one-element lists, `json.loads` on array literals) are
modelled by an executable encoder/parser for the JSON fragment the program
can actually represent, and the stateful methods of `DatabaseMigrator`
become pure functions threading the target database, the statistics
aggregate and a trace of the SQL statements issued on each connection.
-/

/-- A Python value as it arrives from / is sent to SQLite through the
migrator: `NULL`, an integer, or a text value.  (REAL and BLOB columns play
no role in any property considered here and are outside the modelled
domain.) -/
inductive PyVal where
  | none
  | int (n : Int)
  | str (s : String)
deriving DecidableEq, Repr

/-- Python `str(value)` on the modelled value domain: `str(None) = "None"`,
`str` of an `int` is its decimal form with a leading `-` for negatives,
`str` of a `str` is the string itself. -/
def pyStr : PyVal → String
  | .none => "None"
  | .int n => toString n
  | .str s => s

/-- Python `s.startswith(p)`. -/
def pyStartswith (s p : String) : Bool :=
  p.data.isPrefixOf s.data

/-- Python `s.endswith(p)`. -/
def pyEndswith (s p : String) : Bool :=
  p.data.reverse.isPrefixOf s.data.reverse

/-- The check `value.startswith('[') and value.endswith(']')` used by
`convert_value_by_pseudotype` (migrator.py lines 105 and 131). -/
def looksLikeArray (s : String) : Bool :=
  pyStartswith s "[" && pyEndswith s "]"

/-! ### The JSON fragment used by the migrator

`convert_value_by_pseudotype` calls `json.dumps` only on one-element lists
of strings and `json.loads` only on strings that start with `[` and end
with `]`.  We model the encoder and the parser for JSON arrays whose
elements are strings, integers or `null` — the only array contents
representable in the `PyVal` domain.  Python's default `ensure_ascii=True`
additionally `\u`-escapes characters above `0x7e`; `json.loads` inverts
that escaping, so modelling those characters as emitted verbatim changes
no value produced by the program and no property proved here.  Fractional
or exponent number literals and nested containers parse to values outside
`PyVal` and are modelled as parse failures. -/

/-- Lowercase hexadecimal digit, as produced by Python's `json` encoder in
`\u00xx` escapes. -/
def hexDigit (n : Nat) : Char :=
  if n < 10 then Char.ofNat (48 + n) else Char.ofNat (87 + n)

/-- Escape one character the way Python's `json.dumps` escapes characters
inside a string literal: `"` and `\` get a backslash, the five control
characters with short forms use them, the remaining control characters
become `\u00xx`, everything else is emitted verbatim (see the note above
about `ensure_ascii`). -/
def escChar (c : Char) : List Char :=
  if c = '"' then ['\\', '"']
  else if c = '\\' then ['\\', '\\']
  else if c.toNat = 8 then ['\\', 'b']
  else if c.toNat = 9 then ['\\', 't']
  else if c.toNat = 10 then ['\\', 'n']
  else if c.toNat = 12 then ['\\', 'f']
  else if c.toNat = 13 then ['\\', 'r']
  else if c.toNat < 32 then ['\\', 'u', '0', '0', hexDigit (c.toNat / 16), hexDigit (c.toNat % 16)]
  else [c]

/-- Escape a whole string body. -/
def escList : List Char → List Char
  | [] => []
  | c :: cs => escChar c ++ escList cs

/-- `json.dumps` of a single string: the quoted, escaped literal. -/
def jsonQuote (s : String) : String :=
  String.mk ('"' :: escList s.data ++ ['"'])

/-- Python's `", ".join`, the default element separator of `json.dumps`. -/
def joinComma : List String → String
  | [] => ""
  | [x] => x
  | x :: xs => x ++ ", " ++ joinComma xs

/-- `json.dumps` of a list of strings: `[` + comma-joined quoted elements
+ `]`. -/
def jsonDumps (elems : List String) : String :=
  "[" ++ joinComma (elems.map jsonQuote) ++ "]"

/-- Numeric value of one hexadecimal digit (either case), used when parsing
`\uXXXX` escapes. -/
def hexVal (c : Char) : Option Nat :=
  if '0' ≤ c ∧ c ≤ '9' then some (c.toNat - 48)
  else if 'a' ≤ c ∧ c ≤ 'f' then some (c.toNat - 87)
  else if 'A' ≤ c ∧ c ≤ 'F' then some (c.toNat - 55)
  else none

/-- Decode a single-character JSON escape (`\"`, `\\`, `\/`, `\b`, `\f`,
`\n`, `\r`, `\t`). -/
def escDecode (e : Char) : Option Char :=
  if e = '"' then some '"'
  else if e = '\\' then some '\\'
  else if e = '/' then some '/'
  else if e = 'b' then some (Char.ofNat 8)
  else if e = 'f' then some (Char.ofNat 12)
  else if e = 'n' then some (Char.ofNat 10)
  else if e = 'r' then some (Char.ofNat 13)
  else if e = 't' then some (Char.ofNat 9)
  else none

/-- Parse the body of a JSON string literal after the opening quote,
returning the decoded characters and the remaining input after the closing
quote.  A `\uXXXX` escape reads exactly four hexadecimal digits; raw
control characters are rejected, as Python's strict-mode `json.loads`
does. -/
def parseStringBody : List Char → Option (List Char × List Char)
  | [] => none
  | c :: cs =>
    if c = '"' then some ([], cs)
    else if c = '\\' then
      match cs with
      | [] => none
      | 'u' :: a :: b :: c2 :: d :: cs'' =>
        match hexVal a, hexVal b, hexVal c2, hexVal d with
        | some x1, some x2, some x3, some x4 =>
          match parseStringBody cs'' with
          | some p => some (Char.ofNat (((x1 * 16 + x2) * 16 + x3) * 16 + x4) :: p.1, p.2)
          | none => none
        | _, _, _, _ => none
      | 'u' :: _ => none
      | e :: cs' =>
        match escDecode e with
        | some d =>
          match parseStringBody cs' with
          | some p => some (d :: p.1, p.2)
          | none => none
        | none => none
    else if c.toNat < 32 then none
    else
      match parseStringBody cs with
      | some p => some (c :: p.1, p.2)
      | none => none
termination_by l => l.length
decreasing_by all_goals simp <;> omega

/-- JSON whitespace, as skipped by `json.loads`. -/
def isJsonWs (c : Char) : Bool :=
  c = ' ' || c = '\t' || c = '\n' || c = '\r'

/-- Drop leading JSON whitespace. -/
def skipWs : List Char → List Char
  | [] => []
  | c :: cs => if isJsonWs c then skipWs cs else c :: cs

/-- Accumulating digit parser: `parseDigitsAcc acc l` consumes the maximal
digit run at the head of `l`, extending the accumulator `acc`. -/
def parseDigitsAcc (acc : Nat) : List Char → Nat × List Char
  | [] => (acc, [])
  | c :: cs =>
    if '0' ≤ c ∧ c ≤ '9' then parseDigitsAcc (acc * 10 + (c.toNat - 48)) cs
    else (acc, c :: cs)

/-- Parse one JSON value of the fragment representable in `PyVal`: a string
literal, an integer literal (optionally negative; a following `.`, `e` or
`E` would denote a float, which is outside the modelled domain and is
treated as a parse failure), or `null`. -/
def parseJsonValue : List Char → Option (PyVal × List Char)
  | '"' :: cs =>
    match parseStringBody cs with
    | some (body, rest) => some (.str (String.mk body), rest)
    | none => none
  | 'n' :: 'u' :: 'l' :: 'l' :: cs => some (.none, cs)
  | '-' :: c :: cs =>
    if '0' ≤ c ∧ c ≤ '9' then
      match parseDigitsAcc (c.toNat - 48) cs with
      | (n, rest) =>
        match rest with
        | r :: _ => if r = '.' ∨ r = 'e' ∨ r = 'E' then none else some (.int (-(n : Int)), rest)
        | [] => some (.int (-(n : Int)), rest)
    else none
  | c :: cs =>
    if '0' ≤ c ∧ c ≤ '9' then
      match parseDigitsAcc (c.toNat - 48) cs with
      | (n, rest) =>
        match rest with
        | r :: _ => if r = '.' ∨ r = 'e' ∨ r = 'E' then none else some (.int (n : Int), rest)
        | [] => some (.int (n : Int), rest)
    else none
  | [] => none

/-- Parse the comma-separated elements of a JSON array up to and including
the closing `]`.  The fuel argument bounds the number of elements; callers
pass the input length, which always suffices because every element consumes
at least one character. -/
def parseElems : Nat → List Char → Option (List PyVal × List Char)
  | 0, _ => none
  | fuel + 1, l =>
    match parseJsonValue l with
    | none => none
    | some (v, r) =>
      match skipWs r with
      | ',' :: r' =>
        match parseElems fuel (skipWs r') with
        | some (vs, rest) => some (v :: vs, rest)
        | none => none
      | ']' :: r' => some ([v], r')
      | _ => none

/-- Helper lemmas: the parser inverts the encoder on the strings the
migrator produces with `json.dumps([value])`. -/
theorem hexVal_hexDigit : ∀ n < 16, hexVal (hexDigit n) = some n := by decide

theorem parseStringBody_escChar (c : Char) (rest : List Char) :
    parseStringBody (escChar c ++ rest) =
      match parseStringBody rest with
      | some p => some (c :: p.1, p.2)
      | none => none := by
  unfold escChar
  by_cases h1 : c = '"'
  · subst h1; simp [parseStringBody, escDecode]
  by_cases h2 : c = '\\'
  · subst h2; simp [parseStringBody, escDecode]
  simp only [if_neg h1, if_neg h2]
  by_cases h3 : c.toNat = 8
  · have hc : c = Char.ofNat 8 := by rw [← h3, Char.ofNat_toNat]
    simp [h3, parseStringBody, escDecode, hc]
  by_cases h4 : c.toNat = 9
  · have hc : c = Char.ofNat 9 := by rw [← h4, Char.ofNat_toNat]
    simp [h3, h4, parseStringBody, escDecode, hc]
  by_cases h5 : c.toNat = 10
  · have hc : c = Char.ofNat 10 := by rw [← h5, Char.ofNat_toNat]
    simp [h3, h4, h5, parseStringBody, escDecode, hc]
  by_cases h6 : c.toNat = 12
  · have hc : c = Char.ofNat 12 := by rw [← h6, Char.ofNat_toNat]
    simp [h3, h4, h5, h6, parseStringBody, escDecode, hc]
  by_cases h7 : c.toNat = 13
  · have hc : c = Char.ofNat 13 := by rw [← h7, Char.ofNat_toNat]
    simp [h3, h4, h5, h6, h7, parseStringBody, escDecode, hc]
  by_cases h8 : c.toNat < 32
  · have ha : hexVal (hexDigit (c.toNat / 16)) = some (c.toNat / 16) :=
      hexVal_hexDigit _ (by omega)
    have hb : hexVal (hexDigit (c.toNat % 16)) = some (c.toNat % 16) :=
      hexVal_hexDigit _ (by omega)
    have hz : hexVal '0' = some 0 := by decide
    have hc : Char.ofNat (c.toNat / 16 * 16 + c.toNat % 16) = c := by
      have hn : c.toNat / 16 * 16 + c.toNat % 16 = c.toNat := by omega
      rw [hn, Char.ofNat_toNat]
    simp only [if_pos h8, if_neg h3, if_neg h4, if_neg h5, if_neg h6, if_neg h7]
    simp [parseStringBody, hz, ha, hb, hc]
  · simp only [if_neg h3, if_neg h4, if_neg h5, if_neg h6, if_neg h7, if_neg h8]
    conv_lhs => rw [parseStringBody.eq_def]
    simp [h1, h2, h8]

theorem parseStringBody_escList (s : List Char) (rest : List Char) :
    parseStringBody (escList s ++ '"' :: rest) = some (s, rest) := by
  induction s with
  | nil =>
    rw [escList, List.nil_append, parseStringBody.eq_def]
    simp
  | cons c cs ih =>
    rw [escList, List.append_assoc, parseStringBody_escChar, ih]

/-- Model of `json.loads` restricted to the JSON fragment the migrator can
represent: a top-level array of strings, integers and nulls.  Returns
`none` where `json.loads` raises (malformed input, trailing garbage) or
where the parsed document lies outside the modelled `PyVal` domain. -/
def jsonLoadsArr (s : String) : Option (List PyVal) :=
  match skipWs s.data with
  | '[' :: r =>
    (match skipWs r with
     | ']' :: r' => if (skipWs r').isEmpty then some [] else none
     | r'' =>
       match parseElems s.data.length r'' with
       | some (vs, rest) => if (skipWs rest).isEmpty then some vs else none
       | none => none)
  | _ => none

theorem parseElems_quoted (f : Nat) (s : List Char) :
    parseElems (f + 1) ('"' :: (escList s ++ ['"', ']'])) =
      some ([.str (String.mk s)], []) := by
  have h : escList s ++ ['"', ']'] = escList s ++ '"' :: [']'] := rfl
  simp [parseElems, parseJsonValue, h, parseStringBody_escList, skipWs, isJsonWs]

theorem jsonDumps_single_data (v : String) :
    (jsonDumps [v]).data = '[' :: '"' :: (escList v.data ++ ['"', ']']) := by
  simp [jsonDumps, joinComma, jsonQuote]

/-- `json.loads (json.dumps [v])` recovers the one-element list `[v]`: the
key inversion fact behind the string/array round trip. -/
theorem jsonLoadsArr_jsonDumps_single (v : String) :
    jsonLoadsArr (jsonDumps [v]) = some [PyVal.str v] := by
  unfold jsonLoadsArr
  rw [jsonDumps_single_data]
  simp [skipWs, isJsonWs, parseElems_quoted]

/-- The encoding of a one-element array starts with `[` and ends with `]`,
so `convert` treats it as an array literal. -/
theorem looksLikeArray_jsonDumps_single (v : String) :
    looksLikeArray (jsonDumps [v]) = true := by
  have hd := jsonDumps_single_data v
  simp [looksLikeArray, pyStartswith, pyEndswith, hd, List.isPrefixOf]

/-! ### The statistics aggregate

`DatabaseMigrator.__init__` creates `self.migration_stats` with counters,
per-side difference records and conversion logs.  Nested Python dicts
become association lists (Python dicts preserve insertion order; key sets
are disjoint in every use below, and `alistGet` takes the last binding the
way a dict's later assignment overwrites an earlier one).  The
`unsupported_conversions` key is created lazily in Python; here the field
simply starts empty, which is observationally the same. -/

/-- One record of `migration_stats["unsupported_conversions"][table][column]`
(migrator.py lines 152-157). -/
structure UnsupportedEntry where
  source_type : String
  target_type : String
  example_value : String
deriving DecidableEq, Repr

/-- One before/after pair of `pseudotype_conversions[...]["examples"]`. -/
structure ConversionExample where
  original : String
  converted : String
deriving DecidableEq, Repr

/-- One record of `migration_stats["pseudotype_conversions"][table][column]`,
as consumed by the reporting code (migrator.py lines 279-282, 541-548). -/
structure PseudotypeConvInfo where
  source_type : String
  target_type : String
  examples : List ConversionExample
deriving DecidableEq, Repr

/-- Last-binding lookup in an association list (Python dict lookup). -/
def alistGet {α : Type} (l : List (String × α)) (k : String) : Option α :=
  Option.map Prod.snd (l.reverse.find? (fun p => p.1 = k))

/-- Replace the value bound to an existing key (Python `d[k] = v` when `k`
is already present). -/
def alistSet {α : Type} (l : List (String × α)) (k : String) (v : α) :
    List (String × α) :=
  l.map (fun p => if p.1 = k then (p.1, v) else p)

/-- The `migration_stats` dict (migrator.py lines 21-31). -/
structure MigrationStats where
  tables_migrated : Nat
  tables_skipped : Nat
  total_records_migrated : Nat
  source_only_tables : List String
  target_only_tables : List String
  source_only_columns : List (String × List String)
  target_only_columns : List (String × List String)
  type_conversion_issues : List (String × List String)
  pseudotype_conversions : List (String × List (String × PseudotypeConvInfo))
  unsupported_conversions : List (String × List (String × UnsupportedEntry))
deriving DecidableEq, Repr

/-- The dict literal assigned in `__init__`: all counters zero, all logs
empty. -/
def initMigrationStats : MigrationStats :=
  { tables_migrated := 0
    tables_skipped := 0
    total_records_migrated := 0
    source_only_tables := []
    target_only_tables := []
    source_only_columns := []
    target_only_columns := []
    type_conversion_issues := []
    pseudotype_conversions := []
    unsupported_conversions := [] }

/-- Python `str(value)[:100]` (migrator.py line 156). -/
def truncate100 (s : String) : String := s.take 100

/-- migrator.py lines 144-157: record an unsupported pseudotype conversion
into `migration_stats["unsupported_conversions"]`, creating the per-table
dict on demand and writing the per-column entry only when the column has no
entry yet (first occurrence wins). -/
def recordUnsupported (stats : MigrationStats) (table_name column_name source_type target_type : String) (value : PyVal) : MigrationStats :=
  let entry : UnsupportedEntry :=
    { source_type := source_type
      target_type := target_type
      example_value := truncate100 (pyStr value) }
  match alistGet stats.unsupported_conversions table_name with
  | none =>
    let u := stats.unsupported_conversions ++ [(table_name, [(column_name, entry)])]
    { stats with unsupported_conversions := u }
  | some cols =>
    match alistGet cols column_name with
    | none =>
      let u := alistSet stats.unsupported_conversions table_name (cols ++ [(column_name, entry)])
      { stats with unsupported_conversions := u }
    | some _ => stats

/-- migrator.py lines 85-160, `convert_value_by_pseudotype`.  The Python
method reads `self._current_table` (set by `migrate_table` before any
conversion) and mutates `self.migration_stats`; both are passed explicitly.
Branch by branch:
* `value is None` → returned unchanged;
* string → array: a string that already looks like a JSON array literal is
  returned as is, any other string is wrapped via `json.dumps([value])`;
  a non-string value makes `value.startswith` raise `AttributeError`,
  caught by the broad `except`, which returns `json.dumps([str(value)])`;
* integer → array: `json.dumps([str(value)])` (stringification of a value
  in the modelled domain cannot raise, so the `except` fallback
  `json.dumps(["0"])` is unreachable here);
* array → string: a string looking like an array literal is parsed; a
  non-empty parse yields element 0, an empty parse yields `""`, a parse
  failure (the raised `json.JSONDecodeError`) falls back to `str(value)`;
  any other value yields `str(value)`;
* any other differing pair: the value passes through and the pair is
  recorded once per (table, column);
* equal types: the value passes through untouched. -/
def convert_value_by_pseudotype (stats : MigrationStats) (table_name : String)
    (value : PyVal) (source_type target_type column_name : String) :
    PyVal × MigrationStats :=
  match value with
  | .none => (.none, stats)
  | v =>
    if source_type = "string" ∧ target_type = "array" then
      match v with
      | .str s =>
        if looksLikeArray s then (.str s, stats)
        else (.str (jsonDumps [s]), stats)
      | _ => (.str (jsonDumps [pyStr v]), stats)
    else if source_type = "integer" ∧ target_type = "array" then
      (.str (jsonDumps [pyStr v]), stats)
    else if source_type = "array" ∧ target_type = "string" then
      match v with
      | .str s =>
        if looksLikeArray s then
          match jsonLoadsArr s with
          | some (x :: _) => (x, stats)
          | some [] => (.str "", stats)
          | none => (.str s, stats)
        else (.str s, stats)
      | _ => (.str (pyStr v), stats)
    else if source_type ≠ target_type then
      (v, recordUnsupported stats table_name column_name source_type target_type v)
    else (v, stats)
/-- Looking up a key just appended at the tail of an association list. -/
theorem alistGet_append_last {α : Type} (l : List (String × α)) (k : String) (v : α) :
    alistGet (l ++ [(k, v)]) k = some v := by
  simp [alistGet, List.reverse_append, List.find?]

theorem alistGet_singleton {α : Type} (k : String) (v : α) :
    alistGet [(k, v)] k = some v := by
  simp [alistGet, List.find?]

/-- Replacing the bindings of key `k` by value `v` leaves a list whose first
`k`-binding carries `v`, provided some `k`-binding existed. -/
theorem find?_map_keyfix {α : Type} (k : String) (v : α) :
    ∀ (m : List (String × α)) (w : String × α),
      m.find? (fun p => p.1 = k) = some w →
      Option.map Prod.snd
        ((m.map (fun p => if p.1 = k then (p.1, v) else p)).find? (fun p => p.1 = k)) =
        some v := by
  intro m
  induction m with
  | nil => intro w h; simp at h
  | cons p ps ih =>
    intro w h
    by_cases hp : p.1 = k
    · simp [List.find?_cons, hp]
    · simp only [List.map_cons, List.find?_cons] at h ⊢
      rw [if_neg hp]
      rw [decide_eq_false hp] at h ⊢
      exact ih w h

/-- Rebinding a present key with `alistSet` makes `alistGet` return the new
value. -/
theorem alistGet_alistSet_self {α : Type} (l : List (String × α)) (k : String) (v w : α)
    (h : alistGet l k = some w) : alistGet (alistSet l k v) k = some v := by
  unfold alistGet at *
  unfold alistSet
  rw [← List.map_reverse]
  cases hf : l.reverse.find? (fun p => p.1 = k) with
  | none => rw [hf] at h; simp at h
  | some w2 => exact find?_map_keyfix k v l.reverse w2 hf

/-- Convenience lookup into the nested unsupported-conversions log. -/
def lookupUnsupported (stats : MigrationStats) (tbl col : String) :
    Option UnsupportedEntry :=
  match alistGet stats.unsupported_conversions tbl with
  | some cols => alistGet cols col
  | none => none

theorem recordUnsupported_new (stats : MigrationStats)
    (tbl col st tt : String) (v : PyVal)
    (h : lookupUnsupported stats tbl col = none) :
    lookupUnsupported (recordUnsupported stats tbl col st tt v) tbl col =
      some ⟨st, tt, truncate100 (pyStr v)⟩ := by
  unfold lookupUnsupported at *
  unfold recordUnsupported
  cases hg : alistGet stats.unsupported_conversions tbl with
  | none =>
    simp [hg, alistGet_append_last, alistGet_singleton]
  | some cols =>
    simp only [hg] at h
    simp [hg, h, alistGet_alistSet_self _ _ _ _ hg, alistGet_append_last]

theorem recordUnsupported_existing (stats : MigrationStats)
    (tbl col st tt : String) (v : PyVal) (e : UnsupportedEntry)
    (h : lookupUnsupported stats tbl col = some e) :
    recordUnsupported stats tbl col st tt v = stats := by
  unfold lookupUnsupported at h
  unfold recordUnsupported
  cases hg : alistGet stats.unsupported_conversions tbl with
  | none => rw [hg] at h; simp at h
  | some cols =>
    simp only [hg] at h
    simp [hg, h]

/-- C7: a non-null value under a differing, unsupported pseudotype pair
passes through unchanged and is logged once per (table, column). -/
theorem convert_unsupported_pair (stats : MigrationStats) (tbl col st tt : String) (v : PyVal)
    (hv : v ≠ PyVal.none)
    (h1 : ¬(st = "string" ∧ tt = "array"))
    (h2 : ¬(st = "integer" ∧ tt = "array"))
    (h3 : ¬(st = "array" ∧ tt = "string"))
    (hne : st ≠ tt) :
    (convert_value_by_pseudotype stats tbl v st tt col).1 = v ∧
    (lookupUnsupported stats tbl col = none →
      lookupUnsupported (convert_value_by_pseudotype stats tbl v st tt col).2 tbl col =
        some ⟨st, tt, truncate100 (pyStr v)⟩) ∧
    (∀ e, lookupUnsupported stats tbl col = some e →
      (convert_value_by_pseudotype stats tbl v st tt col).2 = stats) := by
  have hout : convert_value_by_pseudotype stats tbl v st tt col =
      (v, recordUnsupported stats tbl col st tt v) := by
    cases v with
    | none => exact absurd rfl hv
    | int n => simp [convert_value_by_pseudotype, h1, h2, h3, hne]
    | str s => simp [convert_value_by_pseudotype, h1, h2, h3, hne]
  refine ⟨by rw [hout], ?_, ?_⟩
  · intro hnone
    rw [hout]
    exact recordUnsupported_new stats tbl col st tt v hnone
  · intro e he
    rw [hout]
    exact recordUnsupported_existing stats tbl col st tt v e he

/-- C8: converting a non-array-looking string to an array and back yields
the original string. -/
theorem convert_string_array_roundtrip (v : String)
    (stats1 stats2 : MigrationStats) (tbl1 tbl2 col1 col2 : String)
    (h : looksLikeArray v = false) :
    (convert_value_by_pseudotype stats2 tbl2
        (convert_value_by_pseudotype stats1 tbl1 (.str v) "string" "array" col1).1
        "array" "string" col2).1 = PyVal.str v := by
  have h1 : (convert_value_by_pseudotype stats1 tbl1 (.str v) "string" "array" col1).1 =
      PyVal.str (jsonDumps [v]) := by
    simp [convert_value_by_pseudotype, h]
  rw [h1]
  simp [convert_value_by_pseudotype, looksLikeArray_jsonDumps_single,
    jsonLoadsArr_jsonDumps_single]

/-- C9: an integer converted from pseudotype integer to array becomes the
JSON text of the one-element array holding its string form, and parsing
that text back confirms the single element. -/
theorem convert_integer_array (n : Int) (stats : MigrationStats) (tbl col : String) :
    (convert_value_by_pseudotype stats tbl (.int n) "integer" "array" col).1 =
      PyVal.str (jsonDumps [toString n]) ∧
    jsonLoadsArr (jsonDumps [toString n]) = some [PyVal.str (toString n)] := by
  constructor
  · simp [convert_value_by_pseudotype, pyStr]
  · exact jsonLoadsArr_jsonDumps_single (toString n)

/-- Witness for C7 at a concrete input: the scenario from the spec —
column `flag`, source pseudotype boolean, target pseudotype integer. -/
theorem convert_unsupported_pair_witness :
    (convert_value_by_pseudotype initMigrationStats "household" (.int 1)
        "boolean" "integer" "flag").1 = PyVal.int 1 ∧
    lookupUnsupported (convert_value_by_pseudotype initMigrationStats "household" (.int 1)
        "boolean" "integer" "flag").2 "household" "flag" =
      some ⟨"boolean", "integer", truncate100 (pyStr (PyVal.int 1))⟩ := by
  have h := convert_unsupported_pair initMigrationStats "household" "flag"
    "boolean" "integer" (.int 1) (by decide) (by decide) (by decide) (by decide) (by decide)
  exact ⟨h.1, h.2.1 rfl⟩

/-- Witness for C8 at the spec's scenario: source value `"red"`. -/
theorem convert_string_array_roundtrip_witness :
    looksLikeArray "red" = false ∧
    (convert_value_by_pseudotype initMigrationStats "person"
        (convert_value_by_pseudotype initMigrationStats "person"
            (.str "red") "string" "array" "tags").1
        "array" "string" "tags").1 = PyVal.str "red" :=
  ⟨by decide,
   convert_string_array_roundtrip "red" initMigrationStats initMigrationStats
     "person" "person" "tags" "tags" (by decide)⟩

/-! ### The database model

A SQLite database as the migrator sees it: user tables (name, declared
column order from `PRAGMA table_info`, rows aligned with that order) plus
the contents of the `_column_definitions` metadata side table, stored as
`(_table_id, _element_key, _element_type)` triples.  Python builds sets of
table and column names; the model keeps the underlying declaration order,
and no claim below depends on iteration order.  When `_column_definitions`
is missing the Python helper catches the error and returns `{}`, which is
observationally the same as `column_defs = []` here. -/

structure Table where
  columns : List String
  rows : List (List PyVal)
deriving DecidableEq, Repr

structure Database where
  tables : List (String × Table)
  column_defs : List (String × String × String)
deriving DecidableEq, Repr

/-- A SQL statement executed on one of the two connections, as issued by
the migrator.  Each constructor names the `cursor.execute` site it
transcribes. -/
inductive Stmt where
  /-- `SELECT name FROM sqlite_master WHERE type='table'` -/
  | selectMaster
  /-- `SELECT COUNT(*) FROM {table}` -/
  | selectCount (table : String)
  /-- `SELECT * FROM {table} {limit_clause}` -/
  | selectAll (table : String)
  /-- `PRAGMA table_info({table})` -/
  | pragmaTableInfo (table : String)
  /-- `SELECT _element_key, _element_type FROM _column_definitions WHERE _table_id = ?` -/
  | selectColumnDefs (table : String)
  /-- `BEGIN TRANSACTION` -/
  | beginTxn
  /-- `INSERT INTO {table} (...) VALUES ...` carrying `nrows` rows -/
  | insertRows (table : String) (nrows : Nat)
  /-- `connection.commit()` -/
  | commitTxn
  /-- `connection.rollback()` -/
  | rollbackTxn
  /-- `UPDATE hh_person SET village = (SELECT ...) WHERE hh_id IS NOT NULL` -/
  | updateVillages
  /-- `SELECT changes()` -/
  | selectChanges
deriving DecidableEq, Repr

/-- Read-only statements: plain SELECTs and PRAGMAs. -/
def Stmt.isRead : Stmt → Bool
  | .selectMaster | .selectCount _ | .selectAll _
  | .pragmaTableInfo _ | .selectColumnDefs _ | .selectChanges => true
  | _ => false

/-- migrator.py lines 37-42, `get_table_names`: all table names except
those starting with an underscore or with `L__`. -/
def get_table_names (db : Database) : List String :=
  (db.tables.map Prod.fst).filter
    (fun n => !(pyStartswith n "_" || pyStartswith n "L__"))

/-- migrator.py lines 44-48, `get_column_names`: the column names from
`PRAGMA table_info`; an absent table yields no pragma rows, hence the empty
list, without an error. -/
def get_column_names (db : Database) (table_name : String) : List String :=
  match alistGet db.tables table_name with
  | some t => t.columns
  | none => []

/-- migrator.py lines 64-83, `get_column_pseudotype`: the
`(_element_key, _element_type)` pairs of `_column_definitions` rows whose
`_table_id` matches. -/
def get_column_pseudotype (db : Database) (table_name : String) :
    List (String × String) :=
  (db.column_defs.filter (fun r => r.1 = table_name)).map (fun r => r.2)

/-- Python `d.get(col, "string")` on a pseudotype dict (migrator.py lines
247-248); the dict built from query rows lets a later duplicate key
overwrite an earlier one, hence the last-binding lookup. -/
def pseudotypeGet (d : List (String × String)) (col : String) : String :=
  match alistGet d col with
  | some t => t
  | none => "string"

/-- Python `record_dict[col]` for the dict built by
`dict(zip(column_names, record))`; `zip` truncates to the shorter argument
and column names are distinct, so last-binding lookup agrees with the
dict.  The `.none` default models the impossible `KeyError` case — every
column looked up below is a matching column, hence a source column, and
source rows carry one value per source column. -/
def dictGetPyVal (d : List (String × PyVal)) (col : String) : PyVal :=
  match alistGet d col with
  | some v => v
  | none => .none

/-- Python `record_dict[col] = converted_value` for the dict above. -/
def recordSet (d : List (String × PyVal)) (col : String) (v : PyVal) :
    List (String × PyVal) :=
  alistSet d col v

/-- migrator.py lines 246-254: the per-record loop over matching columns
that routes values whose source and target pseudotypes differ through the
Pseudotype Converter, updating `record_dict` in place and threading the
stats (for the unsupported-conversions log). -/
def applyConversions (tbl : String) (sp tp : List (String × String))
    (matching : List String) :
    List (String × PyVal) → MigrationStats → List (String × PyVal) × MigrationStats :=
  fun d stats =>
    matching.foldl
      (fun acc col =>
        let st := pseudotypeGet sp col
        let tt := pseudotypeGet tp col
        if st ≠ tt then
          let r := convert_value_by_pseudotype acc.2 tbl
            (dictGetPyVal acc.1 col) st tt col
          (recordSet acc.1 col r.1, r.2)
        else acc)
      (d, stats)

/-- migrator.py lines 244-255 for one batch: build each record's final
dict (conversions applied); the flattened `values` list and the row shipped
to the target are both read back out of these dicts. -/
def convertBatch (tbl : String) (sp tp : List (String × String))
    (column_names matching : List String) :
    List (List PyVal) → MigrationStats → List (List (String × PyVal)) × MigrationStats
  | [], stats => ([], stats)
  | r :: rs, stats =>
    let d := applyConversions tbl sp tp matching (column_names.zip r) stats
    let rest := convertBatch tbl sp tp column_names matching rs d.2
    (d.1 :: rest.1, rest.2)

/-- Python dict assignment `d[k] = v`: overwrite if present, else append
(insertion order preserved). -/
def alistUpsert {α : Type} (l : List (String × α)) (k : String) (v : α) :
    List (String × α) :=
  match alistGet l k with
  | some _ => alistSet l k v
  | none => l ++ [(k, v)]

/-- config/schema_config.py lines 8-15: the configuration actually passed
to `DatabaseMigrator` by `main.py` (via `SCHEMA_CONFIG`), including the
testing options.  The `column_transformations` registry is omitted: the
migrator never reads it. -/
structure DatabaseConfig where
  source_db_path : String
  target_db_path : String
  test_mode : Bool
  max_rows_per_table : Option Nat
deriving DecidableEq, Repr

/-- migrator.py line 215: `limit_clause = f""`.  The f-string is literally
empty — whatever `test_mode` and `max_rows_per_table` the configuration
carries, no LIMIT is ever appended, and the SELECT on line 216 fetches
every source row. -/
def limit_clause (config : DatabaseConfig) : String := ""

/-- Structural worker for `pyBatches`: the fuel argument (instantiated
with the list length) only drives the recursion; every step consumes at
least one element, so the zero-fuel arm is unreachable from `pyBatches`. -/
def pyBatchesAux {α : Type} : Nat → List α → List (List α)
  | _, [] => []
  | 0, _ :: _ => []
  | f + 1, x :: xs => (x :: xs).take 100 :: pyBatchesAux f ((x :: xs).drop 100)

/-- migrator.py line 239, `for i in range(0, len(source_records),
batch_size)` with `batch_size = 100` (line 232): the slices
`source_records[i:i+100]`. -/
def pyBatches {α : Type} (l : List α) : List (List α) :=
  pyBatchesAux l.length l

/-- Result of the batch loop of `migrate_table` (migrator.py lines
235-273): final stats, the rows committed into the target table, the local
`total_inserted` and `total_errors` counters, and the statements issued on
the target connection. -/
structure BatchOut where
  stats : MigrationStats
  newRows : List (List PyVal)
  total_inserted : Nat
  total_errors : Nat
  trace : List Stmt
deriving Repr

/-- migrator.py lines 239-273, one loop iteration per batch.  `batchFails`
is the environment oracle saying whether the engine raises on the batch
with the given ordinal (constraint violation, type mismatch — conditions
outside the pure model).  On failure the except block rolls the
transaction back (the batch's rows never reach the target), adds the batch
size to `total_errors`, logs, and the loop continues with the next batch;
nothing is re-raised.  On success the batch commits: its rows are appended
to the target table, with matching columns carrying the converted values
and the remaining target columns left at their defaults (modelled as
NULL). -/
def runBatches (tbl : String) (tgtCols : List String)
    (sp tp : List (String × String)) (column_names matching : List String)
    (batchFails : Nat → Bool) :
    Nat → MigrationStats → List (List (List PyVal)) → BatchOut
  | _, stats, [] => ⟨stats, [], 0, 0, []⟩
  | i, stats, b :: bs =>
    let conv := convertBatch tbl sp tp column_names matching b stats
    if batchFails i then
      let rest := runBatches tbl tgtCols sp tp column_names matching batchFails
        (i + 1) conv.2 bs
      ⟨rest.stats, rest.newRows, rest.total_inserted, rest.total_errors + b.length,
        [.beginTxn, .insertRows tbl b.length, .rollbackTxn] ++ rest.trace⟩
    else
      let newR := conv.1.map
        (fun d => tgtCols.map (fun c => if matching.contains c then dictGetPyVal d c else .none))
      let rest := runBatches tbl tgtCols sp tp column_names matching batchFails
        (i + 1) conv.2 bs
      ⟨rest.stats, newR ++ rest.newRows, rest.total_inserted + b.length, rest.total_errors,
        [.beginTxn, .insertRows tbl b.length, .commitTxn] ++ rest.trace⟩

/-- Append committed rows to the named target table. -/
def insertIntoTable (db : Database) (table_name : String)
    (newRows : List (List PyVal)) : Database :=
  let ts := db.tables.map
    (fun p => if p.1 = table_name then (p.1, Table.mk p.2.columns (p.2.rows ++ newRows)) else p)
  { db with tables := ts }

/-- The intersection computed on migrator.py line 196, in source column
order (Python iterates the set in an unspecified order; no property below
depends on the order). -/
def matchingColumnsOf (src tgt : Database) (t : String) : List String :=
  (get_column_names src t).filter (fun c => (get_column_names tgt t).contains c)

/-- migrator.py lines 200-206: record non-empty column differences into the
stats (the guarding logger-level checks are always true, see
`migrate_table`). -/
def recordColumnDiffs (stats : MigrationStats) (table_name : String)
    (source_only target_only : List String) : MigrationStats :=
  let stats1 :=
    if source_only.isEmpty then stats
    else
      let soc := alistUpsert stats.source_only_columns table_name source_only
      { stats with source_only_columns := soc }
  if target_only.isEmpty then stats1
  else
    let toc := alistUpsert stats1.target_only_columns table_name target_only
    { stats1 with target_only_columns := toc }

/-- Result of `migrate_table`: the target database, the stats, the SQL
statements issued on the source and target connections, and whether an
exception escaped the method. -/
structure MTResult where
  target : Database
  stats : MigrationStats
  srcTrace : List Stmt
  tgtTrace : List Stmt
  raised : Bool
deriving Repr

/-- migrator.py lines 162-295, `migrate_table`.  Line-by-line:
* 174-182: `SELECT COUNT(*)`; zero source rows → `tables_skipped += 1`,
  return (a `COUNT` on a table absent from the source would raise outside
  any try block and propagate; `migrate_all` only passes tables present in
  both databases, so the model returns `raised := true` there);
* 184-206: column names of both sides (`PRAGMA`), pseudotype maps, the
  diff; non-empty differences are recorded in the stats (the guarding
  `logger.level <= logging.INFO` is true throughout: the module logger's
  level is never set, so its value 0 passes the check);
* 208-211: empty matching set → `tables_skipped += 1`, return;
* 213-217: `SELECT * FROM {table} {limit_clause}` with the empty
  `limit_clause` — all rows; 220-222: `PRAGMA` for declaration order;
* 225: `if source_records:` is necessarily true (the count was non-zero);
* 231-273: the batch loop (`runBatches`);
* 275-282: `if pseudotype_conversions:` — the local dict is initialized
  on line 193 and never written, so this block never fires;
* 284: `total_records_migrated += total_inserted`;
* 286-295: the two except blocks re-raise, but every batch exception was
  already consumed inside the loop, so nothing escapes this path. -/
def migrate_table (config : DatabaseConfig) (src tgt : Database)
    (stats : MigrationStats) (batchFails : Nat → Bool) (table_name : String) :
    MTResult :=
  match alistGet src.tables table_name with
  | none => ⟨tgt, stats, [.selectCount table_name], [], true⟩
  | some stbl =>
    let source_count := stbl.rows.length
    if source_count = 0 then
      ⟨tgt, { stats with tables_skipped := stats.tables_skipped + 1 },
        [.selectCount table_name], [], false⟩
    else
      let source_columns := get_column_names src table_name
      let target_columns := get_column_names tgt table_name
      let source_pseudotypes := get_column_pseudotype src table_name
      let target_pseudotypes := get_column_pseudotype tgt table_name
      let matching_columns := matchingColumnsOf src tgt table_name
      let source_only := source_columns.filter (fun c => !target_columns.contains c)
      let target_only := target_columns.filter (fun c => !source_columns.contains c)
      let stats2 := recordColumnDiffs stats table_name source_only target_only
      if matching_columns.isEmpty then
        ⟨tgt, { stats2 with tables_skipped := stats2.tables_skipped + 1 },
          [.selectCount table_name, .pragmaTableInfo table_name, .selectColumnDefs table_name],
          [.pragmaTableInfo table_name, .selectColumnDefs table_name], false⟩
      else
        let source_records := stbl.rows
        let column_names := stbl.columns
        let bo := runBatches table_name target_columns source_pseudotypes
          target_pseudotypes column_names matching_columns batchFails 0 stats2
          (pyBatches source_records)
        let pseudotype_conversions : List (String × PseudotypeConvInfo) := []
        let stats3 :=
          if pseudotype_conversions.isEmpty then bo.stats
          else
            let pcs := alistUpsert bo.stats.pseudotype_conversions table_name pseudotype_conversions
            { bo.stats with pseudotype_conversions := pcs }
        let stats4 :=
          { stats3 with total_records_migrated := stats3.total_records_migrated + bo.total_inserted }
        ⟨insertIntoTable tgt table_name bo.newRows, stats4,
          [.selectCount table_name, .pragmaTableInfo table_name,
           .selectColumnDefs table_name, .selectAll table_name,
           .pragmaTableInfo table_name],
          [.pragmaTableInfo table_name, .selectColumnDefs table_name] ++ bo.trace,
          false⟩

/-- The stats fields that the Pseudotype Converter can never touch: its
only write is the unsupported-conversions log. -/
def statsCore (s : MigrationStats) :
    Nat × Nat × Nat × List (String × List (String × PseudotypeConvInfo)) :=
  (s.tables_migrated, s.tables_skipped, s.total_records_migrated, s.pseudotype_conversions)

theorem statsCore_recordUnsupported (s : MigrationStats)
    (tbl col st tt : String) (v : PyVal) :
    statsCore (recordUnsupported s tbl col st tt v) = statsCore s := by
  unfold recordUnsupported
  cases hg : alistGet s.unsupported_conversions tbl with
  | none => rfl
  | some cols =>
    dsimp only
    cases hc : alistGet cols col with
    | none => rfl
    | some e => rfl

theorem statsCore_convert (s : MigrationStats) (tbl : String) (v : PyVal)
    (st tt col : String) :
    statsCore (convert_value_by_pseudotype s tbl v st tt col).2 = statsCore s := by
  unfold convert_value_by_pseudotype
  cases v with
  | none => rfl
  | int n =>
    repeat' split
    all_goals first
      | rfl
      | exact statsCore_recordUnsupported s tbl col st tt (.int n)
  | str w =>
    repeat' split
    all_goals first
      | rfl
      | exact statsCore_recordUnsupported s tbl col st tt (.str w)

theorem statsCore_applyConversions (tbl : String) (sp tp : List (String × String))
    (matching : List String) (d : List (String × PyVal)) (s : MigrationStats) :
    statsCore (applyConversions tbl sp tp matching d s).2 = statsCore s := by
  unfold applyConversions
  induction matching generalizing d s with
  | nil => rfl
  | cons c cs ih =>
    simp only [List.foldl_cons]
    split
    · rw [ih]
      exact statsCore_convert _ _ _ _ _ _
    · exact ih d s

theorem statsCore_convertBatch (tbl : String) (sp tp : List (String × String))
    (cns matching : List String) (rs : List (List PyVal)) (s : MigrationStats) :
    statsCore (convertBatch tbl sp tp cns matching rs s).2 = statsCore s := by
  induction rs generalizing s with
  | nil => rfl
  | cons r rest ih =>
    unfold convertBatch
    rw [ih]
    exact statsCore_applyConversions tbl sp tp matching (cns.zip r) s

theorem convertBatch_length (tbl : String) (sp tp : List (String × String))
    (cns matching : List String) (rs : List (List PyVal)) (s : MigrationStats) :
    (convertBatch tbl sp tp cns matching rs s).1.length = rs.length := by
  induction rs generalizing s with
  | nil => rfl
  | cons r rest ih => unfold convertBatch; simp [ih]

theorem statsCore_runBatches (tbl : String) (tgtCols : List String)
    (sp tp : List (String × String)) (cns matching : List String)
    (fails : Nat → Bool) (i : Nat) (s : MigrationStats)
    (bs : List (List (List PyVal))) :
    statsCore (runBatches tbl tgtCols sp tp cns matching fails i s bs).stats = statsCore s := by
  induction bs generalizing i s with
  | nil => rfl
  | cons b rest ih =>
    unfold runBatches
    split
    · rw [ih]; exact statsCore_convertBatch tbl sp tp cns matching b s
    · rw [ih]; exact statsCore_convertBatch tbl sp tp cns matching b s

/-- Every batch is attempted exactly once: one `BEGIN TRANSACTION` per
batch, a rollback on every failing batch and a commit on every other. -/
theorem runBatches_counts (tbl : String) (tgtCols : List String)
    (sp tp : List (String × String)) (cns matching : List String)
    (fails : Nat → Bool) (i : Nat) (s : MigrationStats)
    (bs : List (List (List PyVal))) :
    ((runBatches tbl tgtCols sp tp cns matching fails i s bs).trace.count Stmt.beginTxn
        = bs.length) ∧
    ((runBatches tbl tgtCols sp tp cns matching fails i s bs).trace.count Stmt.rollbackTxn
        = ((List.range' i bs.length).filter fails).length) ∧
    ((runBatches tbl tgtCols sp tp cns matching fails i s bs).trace.count Stmt.commitTxn
        = ((List.range' i bs.length).filter (fun j => !fails j)).length) := by
  induction bs generalizing i s with
  | nil => exact ⟨rfl, rfl, rfl⟩
  | cons b rest ih =>
    unfold runBatches
    have hr := ih (i + 1) (convertBatch tbl sp tp cns matching b s).2
    simp only [List.length_cons, List.range'_succ]
    split
    next hf =>
      refine ⟨?_, ?_, ?_⟩
      · simp [List.count_cons, hr.1]
      · simp [List.count_cons, List.filter_cons, hf, hr.2.1]
      · simp [List.count_cons, List.filter_cons, hf, hr.2.2]
    next hf =>
      have hf2 : fails i = false := by revert hf; cases fails i <;> simp
      refine ⟨?_, ?_, ?_⟩
      · simp [List.count_cons, hr.1]
      · simp [List.count_cons, List.filter_cons, hf2, hr.2.1]
      · simp [List.count_cons, List.filter_cons, hf2, hr.2.2]

/-- The local `total_inserted` and `total_errors` counters split the batch
rows: together they account for every fetched row. -/
theorem runBatches_inserted_errors (tbl : String) (tgtCols : List String)
    (sp tp : List (String × String)) (cns matching : List String)
    (fails : Nat → Bool) (i : Nat) (s : MigrationStats)
    (bs : List (List (List PyVal))) :
    (runBatches tbl tgtCols sp tp cns matching fails i s bs).total_inserted +
      (runBatches tbl tgtCols sp tp cns matching fails i s bs).total_errors =
      (bs.map List.length).sum := by
  induction bs generalizing i s with
  | nil => rfl
  | cons b rest ih =>
    unfold runBatches
    have hr := ih (i + 1) (convertBatch tbl sp tp cns matching b s).2
    split
    next hf => simp; omega
    next hf => simp; omega

/-- With no failing batch every row is inserted and none errors. -/
theorem runBatches_nofail (tbl : String) (tgtCols : List String)
    (sp tp : List (String × String)) (cns matching : List String)
    (i : Nat) (s : MigrationStats) (bs : List (List (List PyVal))) :
    (runBatches tbl tgtCols sp tp cns matching (fun _ => false) i s bs).total_inserted =
      (bs.map List.length).sum ∧
    (runBatches tbl tgtCols sp tp cns matching (fun _ => false) i s bs).total_errors = 0 := by
  induction bs generalizing i s with
  | nil => exact ⟨rfl, rfl⟩
  | cons b rest ih =>
    unfold runBatches
    have hr := ih (i + 1) (convertBatch tbl sp tp cns matching b s).2
    simp only [Bool.false_eq_true, if_false]
    simp [hr.1, hr.2]
    omega

/-- The committed rows are exactly the successfully inserted ones. -/
theorem runBatches_newRows_length (tbl : String) (tgtCols : List String)
    (sp tp : List (String × String)) (cns matching : List String)
    (fails : Nat → Bool) (i : Nat) (s : MigrationStats)
    (bs : List (List (List PyVal))) :
    (runBatches tbl tgtCols sp tp cns matching fails i s bs).newRows.length =
      (runBatches tbl tgtCols sp tp cns matching fails i s bs).total_inserted := by
  induction bs generalizing i s with
  | nil => rfl
  | cons b rest ih =>
    unfold runBatches
    have hr := ih (i + 1) (convertBatch tbl sp tp cns matching b s).2
    split
    next hf => simpa using hr
    next hf =>
      simp [convertBatch_length, hr]
      omega

theorem pyBatchesAux_sum_length {α : Type} (f : Nat) (l : List α)
    (h : l.length ≤ f) : ((pyBatchesAux f l).map List.length).sum = l.length := by
  induction f generalizing l with
  | zero =>
    cases l with
    | nil => rfl
    | cons x xs => simp at h
  | succ f ih =>
    cases l with
    | nil => rfl
    | cons x xs =>
      rw [pyBatchesAux]
      simp only [List.map_cons, List.sum_cons]
      have hd : ((x :: xs).drop 100).length ≤ f := by simp at h ⊢; omega
      rw [ih _ hd]
      simp
      omega

theorem pyBatches_sum_length {α : Type} (l : List α) :
    ((pyBatches l).map List.length).sum = l.length :=
  pyBatchesAux_sum_length l.length l (Nat.le_refl _)

theorem pyBatchesAux_length {α : Type} (f : Nat) (l : List α)
    (h : l.length ≤ f) : (pyBatchesAux f l).length = (l.length + 99) / 100 := by
  induction f generalizing l with
  | zero =>
    cases l with
    | nil => simp [pyBatchesAux]
    | cons x xs => simp at h
  | succ f ih =>
    cases l with
    | nil => simp [pyBatchesAux]
    | cons x xs =>
      rw [pyBatchesAux]
      simp only [List.length_cons]
      have hd : ((x :: xs).drop 100).length ≤ f := by simp at h ⊢; omega
      rw [ih _ hd]
      simp
      omega

theorem pyBatches_length {α : Type} (l : List α) :
    (pyBatches l).length = (l.length + 99) / 100 :=
  pyBatchesAux_length l.length l (Nat.le_refl _)
theorem statsCore_recordColumnDiffs (stats : MigrationStats) (table_name : String)
    (source_only target_only : List String) :
    statsCore (recordColumnDiffs stats table_name source_only target_only) = statsCore stats := by
  unfold recordColumnDiffs
  split <;> split <;> rfl

/-- C5 core: with batch size 100 and no batch failure, a table with N > 0
source rows and a non-empty matching-column set commits exactly
ceil(N/100) insert transactions and adds exactly N to
`total_records_migrated`. -/
theorem migrate_table_commits_and_total (config : DatabaseConfig) (src tgt : Database)
    (stats : MigrationStats) (table_name : String) (stbl : Table) (N : Nat)
    (hfind : alistGet src.tables table_name = some stbl)
    (hN : stbl.rows.length = N) (hpos : 0 < N)
    (hmatch : matchingColumnsOf src tgt table_name ≠ []) :
    ((migrate_table config src tgt stats (fun _ => false) table_name).tgtTrace.count
        Stmt.commitTxn = (N + 99) / 100) ∧
    ((migrate_table config src tgt stats (fun _ => false) table_name).stats.total_records_migrated
        = stats.total_records_migrated + N) := by
  unfold migrate_table
  rw [hfind]
  dsimp only
  rw [if_neg (by omega)]
  rw [if_neg (by simp [List.isEmpty_iff, hmatch])]
  dsimp only
  constructor
  · rw [List.count_append]
    have h1 : ([Stmt.pragmaTableInfo table_name, Stmt.selectColumnDefs table_name].count
        Stmt.commitTxn) = 0 := by simp [List.count_cons]
    rw [h1]
    have h2 := (runBatches_counts table_name (get_column_names tgt table_name)
      (get_column_pseudotype src table_name) (get_column_pseudotype tgt table_name)
      stbl.columns (matchingColumnsOf src tgt table_name) (fun _ => false) 0
      (recordColumnDiffs stats table_name
        ((get_column_names src table_name).filter
          (fun c => !(get_column_names tgt table_name).contains c))
        ((get_column_names tgt table_name).filter
          (fun c => !(get_column_names src table_name).contains c)))
      (pyBatches stbl.rows)).2.2
    simp only [Bool.not_false, List.filter_true] at h2
    rw [h2]
    simp [List.length_range', pyBatches_length, hN]
  · have hcore := statsCore_runBatches table_name (get_column_names tgt table_name)
      (get_column_pseudotype src table_name) (get_column_pseudotype tgt table_name)
      stbl.columns (matchingColumnsOf src tgt table_name) (fun _ => false) 0
      (recordColumnDiffs stats table_name
        ((get_column_names src table_name).filter
          (fun c => !(get_column_names tgt table_name).contains c))
        ((get_column_names tgt table_name).filter
          (fun c => !(get_column_names src table_name).contains c)))
      (pyBatches stbl.rows)
    have hins := (runBatches_nofail table_name (get_column_names tgt table_name)
      (get_column_pseudotype src table_name) (get_column_pseudotype tgt table_name)
      stbl.columns (matchingColumnsOf src tgt table_name) 0
      (recordColumnDiffs stats table_name
        ((get_column_names src table_name).filter
          (fun c => !(get_column_names tgt table_name).contains c))
        ((get_column_names tgt table_name).filter
          (fun c => !(get_column_names src table_name).contains c)))
      (pyBatches stbl.rows)).1
    have h3 := statsCore_recordColumnDiffs stats table_name
      ((get_column_names src table_name).filter
        (fun c => !(get_column_names tgt table_name).contains c))
      ((get_column_names tgt table_name).filter
        (fun c => !(get_column_names src table_name).contains c))
    have htot := congrArg (fun t => t.2.2.1) hcore
    have htot2 := congrArg (fun t => t.2.2.1) h3
    simp only [statsCore] at htot htot2
    rw [pyBatches_sum_length] at hins
    split
    next => rw [htot, htot2, hins, hN]
    next hFalse => exact absurd rfl hFalse

/-- C6: zero source rows or an empty matching-column set make
`migrate_table` a pure skip: the target database is untouched, only read
statements reach the target connection, the skipped counter rises by
exactly one, and no exception escapes. -/
theorem migrate_table_skip (config : DatabaseConfig) (src tgt : Database)
    (stats : MigrationStats) (fails : Nat → Bool) (table_name : String) (stbl : Table)
    (hfind : alistGet src.tables table_name = some stbl)
    (hskip : stbl.rows = [] ∨ matchingColumnsOf src tgt table_name = []) :
    ((migrate_table config src tgt stats fails table_name).target = tgt) ∧
    ((migrate_table config src tgt stats fails table_name).stats.tables_skipped
        = stats.tables_skipped + 1) ∧
    ((migrate_table config src tgt stats fails table_name).tgtTrace.all Stmt.isRead = true) ∧
    ((migrate_table config src tgt stats fails table_name).raised = false) := by
  unfold migrate_table
  rw [hfind]
  dsimp only
  by_cases hrows : stbl.rows.length = 0
  · rw [if_pos hrows]
    exact ⟨rfl, rfl, rfl, rfl⟩
  · have hm : matchingColumnsOf src tgt table_name = [] := by
      rcases hskip with h | h
      · exact absurd (by simp [h]) hrows
      · exact h
    rw [if_neg hrows]
    rw [if_pos (by simp [List.isEmpty_iff, hm])]
    have hsk := congrArg (fun t => t.2.1)
      (statsCore_recordColumnDiffs stats table_name
        ((get_column_names src table_name).filter
          (fun c => !(get_column_names tgt table_name).contains c))
        ((get_column_names tgt table_name).filter
          (fun c => !(get_column_names src table_name).contains c)))
    simp only [statsCore] at hsk
    exact ⟨rfl, by dsimp only; rw [hsk], rfl, rfl⟩

/-- C1 (amended): a failing batch is rolled back and does not stop the
loop: every batch opens its own transaction (`ceil(N/100)` BEGINs in all
cases), failing batches roll back, the others commit, and `migrate_table`
returns normally instead of propagating the exception. -/
theorem migrate_table_batch_failure_contained (config : DatabaseConfig)
    (src tgt : Database) (stats : MigrationStats) (fails : Nat → Bool)
    (table_name : String) (stbl : Table)
    (hfind : alistGet src.tables table_name = some stbl)
    (hpos : stbl.rows ≠ [])
    (hmatch : matchingColumnsOf src tgt table_name ≠ []) :
    ((migrate_table config src tgt stats fails table_name).raised = false) ∧
    ((migrate_table config src tgt stats fails table_name).tgtTrace.count Stmt.beginTxn
        = (stbl.rows.length + 99) / 100) ∧
    ((migrate_table config src tgt stats fails table_name).tgtTrace.count Stmt.rollbackTxn
        = ((List.range ((stbl.rows.length + 99) / 100)).filter fails).length) ∧
    ((migrate_table config src tgt stats fails table_name).tgtTrace.count Stmt.commitTxn
        = ((List.range ((stbl.rows.length + 99) / 100)).filter (fun j => !fails j)).length) := by
  unfold migrate_table
  rw [hfind]
  dsimp only
  rw [if_neg (by simp [hpos])]
  rw [if_neg (by simp [List.isEmpty_iff, hmatch])]
  have hc := runBatches_counts table_name (get_column_names tgt table_name)
    (get_column_pseudotype src table_name) (get_column_pseudotype tgt table_name)
    stbl.columns (matchingColumnsOf src tgt table_name) fails 0
    (recordColumnDiffs stats table_name
      ((get_column_names src table_name).filter
        (fun c => !(get_column_names tgt table_name).contains c))
      ((get_column_names tgt table_name).filter
        (fun c => !(get_column_names src table_name).contains c)))
    (pyBatches stbl.rows)
  refine ⟨rfl, ?_, ?_, ?_⟩
  · rw [List.count_append]
    have h1 : ([Stmt.pragmaTableInfo table_name, Stmt.selectColumnDefs table_name].count
        Stmt.beginTxn) = 0 := by simp [List.count_cons]
    rw [h1, hc.1, pyBatches_length]
    simp
  · rw [List.count_append]
    have h1 : ([Stmt.pragmaTableInfo table_name, Stmt.selectColumnDefs table_name].count
        Stmt.rollbackTxn) = 0 := by simp [List.count_cons]
    rw [h1, hc.2.1, pyBatches_length, ← List.range_eq_range']
    simp
  · rw [List.count_append]
    have h1 : ([Stmt.pragmaTableInfo table_name, Stmt.selectColumnDefs table_name].count
        Stmt.commitTxn) = 0 := by simp [List.count_cons]
    rw [h1, hc.2.2, pyBatches_length, ← List.range_eq_range']
    simp

/-- `SCHEMA_CONFIG` from config/schema_config.py (test_mode enabled, no
row cap). -/
def cfgDefault : DatabaseConfig :=
  { source_db_path := "data/source.db"
    target_db_path := "data/target.db"
    test_mode := true
    max_rows_per_table := none }

/-- A configuration with a two-row test cap, exercising the
`max_rows_per_table` option the migrator is supposed to honour. -/
def cfgCapped : DatabaseConfig :=
  { source_db_path := "data/source.db"
    target_db_path := "data/target.db"
    test_mode := true
    max_rows_per_table := some 2 }

/-- Five one-column rows. -/
def capRows : List (List PyVal) := (List.range 5).map (fun i => [PyVal.int i])
def capSrcDb : Database := ⟨[("person", ⟨["_id"], capRows⟩)], []⟩
def capTgtDb : Database := ⟨[("person", ⟨["_id"], []⟩)], []⟩

/-- C2 (code evaluation at the failing input): with a cap of 2 configured,
all 5 source rows are still fetched and inserted, because the limit clause
built on line 215 is the empty string. -/
theorem migrate_table_ignores_row_cap :
    cfgCapped.test_mode = true ∧
    cfgCapped.max_rows_per_table = some 2 ∧
    limit_clause cfgCapped = "" ∧
    capRows.length = 5 ∧
    (migrate_table cfgCapped capSrcDb capTgtDb initMigrationStats
        (fun _ => false) "person").stats.total_records_migrated = 5 := by
  refine ⟨rfl, rfl, rfl, by decide, ?_⟩
  decide

/-- One row whose `tags` column undergoes the string→array conversion. -/
def tagsRows : List (List PyVal) := [[PyVal.int 1, PyVal.str "red"]]
def tagsSrcDb : Database :=
  ⟨[("person", ⟨["_id", "tags"], tagsRows⟩)], [("person", "tags", "string")]⟩
def tagsTgtDb : Database :=
  ⟨[("person", ⟨["_id", "tags"], []⟩)], [("person", "tags", "array")]⟩

/-- C3 (code evaluation at the failing input): the `tags` value really is
converted (the target receives the JSON text), yet the
pseudotype-conversions log stays empty — the local dict feeding it is never
populated. -/
theorem pseudotype_conversions_log_never_written :
    (migrate_table cfgDefault tagsSrcDb tagsTgtDb initMigrationStats
        (fun _ => false) "person").target =
      ⟨[("person", ⟨["_id", "tags"], [[PyVal.int 1, PyVal.str "[\"red\"]"]]⟩)],
       [("person", "tags", "array")]⟩ ∧
    (migrate_table cfgDefault tagsSrcDb tagsTgtDb initMigrationStats
        (fun _ => false) "person").stats.pseudotype_conversions = [] := by
  constructor
  · decide
  · decide

/-- 101 one-column rows: two batches of sizes 100 and 1. -/
def bigRows : List (List PyVal) := (List.range 101).map (fun i => [PyVal.int i])
def bigSrcDb : Database := ⟨[("hh", ⟨["_id"], bigRows⟩)], []⟩
def bigTgtDb : Database := ⟨[("hh", ⟨["_id"], []⟩)], []⟩

/-- C1 counterexample: the first batch's insert raises, yet `migrate_table`
returns normally, the second batch is still attempted and committed (its
single row reaches the target and the migrated-records counter), refuting
propagation and the claim that no later batch runs. -/
theorem batch_failure_counterexample :
    ((migrate_table cfgDefault bigSrcDb bigTgtDb initMigrationStats
        (fun i => i == 0) "hh").raised = false) ∧
    ((migrate_table cfgDefault bigSrcDb bigTgtDb initMigrationStats
        (fun i => i == 0) "hh").tgtTrace.count Stmt.rollbackTxn = 1) ∧
    ((migrate_table cfgDefault bigSrcDb bigTgtDb initMigrationStats
        (fun i => i == 0) "hh").tgtTrace.count Stmt.commitTxn = 1) ∧
    ((migrate_table cfgDefault bigSrcDb bigTgtDb initMigrationStats
        (fun i => i == 0) "hh").stats.total_records_migrated = 1) ∧
    ((match alistGet (migrate_table cfgDefault bigSrcDb bigTgtDb initMigrationStats
        (fun i => i == 0) "hh").target.tables "hh" with
      | some t => t.rows.length
      | none => 0) = 1) := by
  decide

/-- Witness for C1's amended statement: at the concrete 101-row table with
the first batch failing, every quantity is as the theorem computes. -/
theorem migrate_table_batch_failure_contained_witness :
    ((migrate_table cfgDefault bigSrcDb bigTgtDb initMigrationStats
        (fun i => i == 0) "hh").raised = false) ∧
    ((migrate_table cfgDefault bigSrcDb bigTgtDb initMigrationStats
        (fun i => i == 0) "hh").tgtTrace.count Stmt.beginTxn = (bigRows.length + 99) / 100) ∧
    ((migrate_table cfgDefault bigSrcDb bigTgtDb initMigrationStats
        (fun i => i == 0) "hh").tgtTrace.count Stmt.rollbackTxn
      = ((List.range ((bigRows.length + 99) / 100)).filter (fun i => i == 0)).length) ∧
    ((migrate_table cfgDefault bigSrcDb bigTgtDb initMigrationStats
        (fun i => i == 0) "hh").tgtTrace.count Stmt.commitTxn
      = ((List.range ((bigRows.length + 99) / 100)).filter (fun j => !(j == 0))).length) :=
  migrate_table_batch_failure_contained cfgDefault bigSrcDb bigTgtDb initMigrationStats
    (fun i => i == 0) "hh" ⟨["_id"], bigRows⟩ rfl (by decide) (by decide)

/-- Witness for C5: the same 101-row table with no failures commits
ceil(101/100) = 2 transactions and migrates exactly 101 records. -/
theorem migrate_table_commits_and_total_witness :
    ((migrate_table cfgDefault bigSrcDb bigTgtDb initMigrationStats
        (fun _ => false) "hh").tgtTrace.count Stmt.commitTxn = (101 + 99) / 100) ∧
    ((migrate_table cfgDefault bigSrcDb bigTgtDb initMigrationStats
        (fun _ => false) "hh").stats.total_records_migrated
      = initMigrationStats.total_records_migrated + 101) :=
  migrate_table_commits_and_total cfgDefault bigSrcDb bigTgtDb initMigrationStats
    "hh" ⟨["_id"], bigRows⟩ 101 rfl (by decide) (by decide) (by decide)

/-- A source table with zero rows, for the C6 witness. -/
def emptySrcDb : Database := ⟨[("person", ⟨["_id"], []⟩)], []⟩

/-- Witness for C6 at the spec's scenario: a source table with 0 rows. -/
theorem migrate_table_skip_witness :
    ((migrate_table cfgDefault emptySrcDb capTgtDb initMigrationStats
        (fun _ => false) "person").target = capTgtDb) ∧
    ((migrate_table cfgDefault emptySrcDb capTgtDb initMigrationStats
        (fun _ => false) "person").stats.tables_skipped
      = initMigrationStats.tables_skipped + 1) ∧
    ((migrate_table cfgDefault emptySrcDb capTgtDb initMigrationStats
        (fun _ => false) "person").tgtTrace.all Stmt.isRead = true) ∧
    ((migrate_table cfgDefault emptySrcDb capTgtDb initMigrationStats
        (fun _ => false) "person").raised = false) :=
  migrate_table_skip cfgDefault emptySrcDb capTgtDb initMigrationStats
    (fun _ => false) "person" ⟨["_id"], []⟩ rfl (Or.inl rfl)

/-! ### The orchestrator: `migrate_all` and its collaborators -/

/-- Lexicographic comparison by code point, Python's string ordering (used
by `sorted(...)` in `_print_table_counts`). -/
def lexLe : List Char → List Char → Bool
  | [], _ => true
  | _ :: _, [] => false
  | a :: as, b :: bs =>
    if a.toNat < b.toNat then true
    else if b.toNat < a.toNat then false
    else lexLe as bs

def strLe (s t : String) : Bool := lexLe s.data t.data

def insertSorted (s : String) : List String → List String
  | [] => [s]
  | t :: ts => if strLe s t then s :: t :: ts else t :: insertSorted s ts

/-- Python `sorted` on a list of strings (insertion sort; only the trace
order of read statements depends on it). -/
def sortStrings (l : List String) : List String := l.foldr insertSorted []

/-- migrator.py lines 302-361, `_print_table_counts`: reads `sqlite_master`
on both connections, then one `COUNT(*)` per table on each side that has
the table, in sorted order.  Only the statement traces matter: the method
writes nothing to either database (the report dict and the interactive
confirmation prompt have no database effect and are not modelled). -/
def print_table_counts (src tgt : Database) : List Stmt × List Stmt :=
  let source_tables := get_table_names src
  let target_tables := get_table_names tgt
  let all_tables := sortStrings
    (source_tables ++ target_tables.filter (fun t => !source_tables.contains t))
  ([Stmt.selectMaster] ++
     (all_tables.filter (fun t => source_tables.contains t)).map Stmt.selectCount,
   [Stmt.selectMaster] ++
     (all_tables.filter (fun t => target_tables.contains t)).map Stmt.selectCount)

/-- Column lookup within a row laid out in `cols` order. -/
def rowGet (cols : List String) (row : List PyVal) (c : String) : PyVal :=
  match cols.findIdx? (fun x => x = c) with
  | some i => row.getD i .none
  | none => .none

/-- Column update within a row laid out in `cols` order. -/
def rowSet (cols : List String) (row : List PyVal) (c : String) (v : PyVal) :
    List PyVal :=
  match cols.findIdx? (fun x => x = c) with
  | some i => row.set i v
  | none => row

/-- Replace the named table's rows. -/
def setTableRows (db : Database) (table_name : String)
    (rows : List (List PyVal)) : Database :=
  let ts := db.tables.map
    (fun p => if p.1 = table_name then (p.1, Table.mk p.2.columns rows) else p)
  { db with tables := ts }

/-- migrator.py lines 363-390, `update_person_villages`: on the TARGET
connection only, `UPDATE hh_person SET village = (SELECT hh.village FROM
household hh WHERE hh_person.hh_id = hh._id) WHERE hh_person.hh_id IS NOT
NULL`, then commit and `SELECT changes()`.  A scalar subquery yields the
first matching row's value, or NULL when no row matches.  If the statement
cannot be prepared (either table or any referenced column missing) SQLite
raises; the except block rolls back and re-raises.  Returns the new target
database, the target-connection statements, and the raised flag. -/
def update_person_villages (tgt : Database) : Database × List Stmt × Bool :=
  match alistGet tgt.tables "hh_person", alistGet tgt.tables "household" with
  | some pt, some ht =>
    if pt.columns.contains "hh_id" && pt.columns.contains "village" &&
        ht.columns.contains "_id" && ht.columns.contains "village" then
      let newRows := pt.rows.map (fun r =>
        let hid := rowGet pt.columns r "hh_id"
        if hid = .none then r
        else
          let v := match ht.rows.find? (fun hr => rowGet ht.columns hr "_id" = hid) with
            | some hr => rowGet ht.columns hr "village"
            | none => .none
          rowSet pt.columns r "village" v)
      (setTableRows tgt "hh_person" newRows,
       [Stmt.updateVillages, Stmt.commitTxn, Stmt.selectChanges], false)
    else (tgt, [Stmt.updateVillages, Stmt.rollbackTxn], true)
  | _, _ => (tgt, [Stmt.updateVillages, Stmt.rollbackTxn], true)

/-- The table intersection of migrator.py line 402, in source
`sqlite_master` order. -/
def commonTables (src tgt : Database) : List String :=
  (get_table_names src).filter (fun t => (get_table_names tgt).contains t)

/-- Accumulated result of the per-table loop (and of `migrate_all`). -/
structure RunOut where
  target : Database
  stats : MigrationStats
  srcTrace : List Stmt
  tgtTrace : List Stmt
  raised : Bool
deriving Repr

/-- migrator.py lines 490-492: for each table, call `migrate_table` (the
progress-bar wrapper adds no database or stats effect) and then increment
`tables_migrated` unconditionally — the increment follows every normal
return, including the skip paths.  If `migrate_table` raised, the loop
stops and the exception escapes (through the `finally` that restores
logging and the wrapped method). -/
def runTables (config : DatabaseConfig) (src : Database)
    (fails : String → Nat → Bool) :
    List String → Database → MigrationStats → RunOut
  | [], tgt, stats => ⟨tgt, stats, [], [], false⟩
  | t :: ts, tgt, stats =>
    let r := migrate_table config src tgt stats (fails t) t
    if r.raised then ⟨r.target, r.stats, r.srcTrace, r.tgtTrace, true⟩
    else
      let stats2 := { r.stats with tables_migrated := r.stats.tables_migrated + 1 }
      let rest := runTables config src fails ts r.target stats2
      ⟨rest.target, rest.stats, r.srcTrace ++ rest.srcTrace,
        r.tgtTrace ++ rest.tgtTrace, rest.raised⟩

/-- Result of `migrate_all`: both databases (the source is returned so the
frame property is a statement about this definition), the stats, the
per-connection statement traces, and the raised flag. -/
structure MAResult where
  source : Database
  target : Database
  stats : MigrationStats
  srcTrace : List Stmt
  tgtTrace : List Stmt
  raised : Bool
deriving Repr

/-- migrator.py lines 408-413: record non-empty table-set differences. -/
def recordTableDiffs (stats : MigrationStats) (source_only target_only : List String) :
    MigrationStats :=
  let stats1 :=
    if source_only.isEmpty then stats
    else { stats with source_only_tables := source_only }
  if target_only.isEmpty then stats1
  else { stats1 with target_only_tables := target_only }

/-- migrator.py lines 392-512, `migrate_all`.  Steps, in statement order:
pre-run row-count snapshot (`print_table_counts`); table sets of both sides
(one more `sqlite_master` read each); record the table-set differences;
per-table `COUNT(*)` on the source for progress estimation; the per-table
loop (`runTables`); then `update_person_villages` on the target.  The
summary step afterwards performs no database statement; in verbose mode
(the constructor default) `_log_summary` raises `KeyError` at line 517
because `migration_stats` has no "test_mode" key, so the run ends with an
exception after all database work has completed — hence the raised flag is
set when `verbose_mode` is true. -/
def migrate_all (config : DatabaseConfig) (verbose_mode : Bool)
    (fails : String → Nat → Bool) (src tgt : Database)
    (stats0 : MigrationStats) : MAResult :=
  let pc := print_table_counts src tgt
  let source_tables := get_table_names src
  let target_tables := get_table_names tgt
  let source_only := source_tables.filter (fun t => !target_tables.contains t)
  let target_only := target_tables.filter (fun t => !source_tables.contains t)
  let stats2 := recordTableDiffs stats0 source_only target_only
  let tables_to_migrate := commonTables src tgt
  let preCounts := tables_to_migrate.map Stmt.selectCount
  let run := runTables config src fails tables_to_migrate tgt stats2
  if run.raised then
    ⟨src, run.target, run.stats,
      pc.1 ++ [Stmt.selectMaster] ++ preCounts ++ run.srcTrace,
      pc.2 ++ [Stmt.selectMaster] ++ run.tgtTrace, true⟩
  else
    let upv := update_person_villages run.target
    ⟨src, upv.1, run.stats,
      pc.1 ++ [Stmt.selectMaster] ++ preCounts ++ run.srcTrace,
      pc.2 ++ [Stmt.selectMaster] ++ run.tgtTrace ++ upv.2.1,
      upv.2.2 || verbose_mode⟩
theorem statsCore_recordTableDiffs (stats : MigrationStats)
    (source_only target_only : List String) :
    statsCore (recordTableDiffs stats source_only target_only) = statsCore stats := by
  unfold recordTableDiffs
  split <;> split <;> rfl

/-- `migrate_table` on a table present in the source returns normally and
never touches `tables_migrated`. -/
theorem migrate_table_normal_return (config : DatabaseConfig) (src tgt : Database)
    (stats : MigrationStats) (fails : Nat → Bool) (t : String) (stbl : Table)
    (hfind : alistGet src.tables t = some stbl) :
    ((migrate_table config src tgt stats fails t).stats.tables_migrated
        = stats.tables_migrated) ∧
    ((migrate_table config src tgt stats fails t).raised = false) := by
  unfold migrate_table
  rw [hfind]
  dsimp only
  split
  · exact ⟨rfl, rfl⟩
  · have hcd := congrArg (fun p => p.1)
      (statsCore_recordColumnDiffs stats t
        ((get_column_names src t).filter
          (fun c => !(get_column_names tgt t).contains c))
        ((get_column_names tgt t).filter
          (fun c => !(get_column_names src t).contains c)))
    simp only [statsCore] at hcd
    split
    · exact ⟨by dsimp only; rw [hcd], rfl⟩
    · have hrb := congrArg (fun p => p.1)
        (statsCore_runBatches t (get_column_names tgt t)
          (get_column_pseudotype src t) (get_column_pseudotype tgt t)
          stbl.columns (matchingColumnsOf src tgt t) fails 0
          (recordColumnDiffs stats t
            ((get_column_names src t).filter
              (fun c => !(get_column_names tgt t).contains c))
            ((get_column_names tgt t).filter
              (fun c => !(get_column_names src t).contains c)))
          (pyBatches stbl.rows))
      simp only [statsCore] at hrb
      refine ⟨?_, rfl⟩
      split
      next => rw [hrb, hcd]
      next hFalse => exact absurd rfl hFalse

/-- A table listed by `get_table_names` is present in the database. -/
theorem get_table_names_mem (db : Database) (t : String)
    (h : t ∈ get_table_names db) : ∃ tb, alistGet db.tables t = some tb := by
  unfold get_table_names at h
  have hm : t ∈ db.tables.map Prod.fst := (List.mem_filter.mp h).1
  obtain ⟨p, hp, hpt⟩ := List.mem_map.mp hm
  have : (db.tables.reverse.find? (fun q => q.1 = t)).isSome := by
    rw [List.find?_isSome]
    exact ⟨p, by simpa using hp, by simp [hpt]⟩
  unfold alistGet
  cases hf : db.tables.reverse.find? (fun q => q.1 = t) with
  | none => rw [hf] at this; simp at this
  | some q => exact ⟨q.2, by simp⟩

/-- The per-table loop increments `tables_migrated` once per table, whether
or not the table's migration was skipped, and finishes without raising, as
long as every listed table exists in the source. -/
theorem runTables_counts_all (config : DatabaseConfig) (src : Database)
    (fails : String → Nat → Bool) (ts : List String) (tgt : Database)
    (stats : MigrationStats)
    (h : ∀ t ∈ ts, ∃ tb, alistGet src.tables t = some tb) :
    ((runTables config src fails ts tgt stats).stats.tables_migrated
        = stats.tables_migrated + ts.length) ∧
    ((runTables config src fails ts tgt stats).raised = false) := by
  induction ts generalizing tgt stats with
  | nil => exact ⟨rfl, rfl⟩
  | cons t rest ih =>
    obtain ⟨tb, htb⟩ := h t (by simp)
    have hmt := migrate_table_normal_return config src tgt stats (fails t) t tb htb
    unfold runTables
    simp only [hmt.2, Bool.false_eq_true, if_false]
    have hih := ih (migrate_table config src tgt stats (fails t) t).target
      { (migrate_table config src tgt stats (fails t) t).stats with
          tables_migrated :=
            (migrate_table config src tgt stats (fails t) t).stats.tables_migrated + 1 }
      (fun x hx => h x (by simp [hx]))
    refine ⟨?_, hih.2⟩
    rw [hih.1]
    dsimp only
    rw [hmt.1]
    simp [List.length_cons]
    omega

/-- C4 (amended): `migrate_all` increments `tables_migrated` once for every
table in the intersection — including skipped ones — because the increment
on line 492 follows the call unconditionally. -/
theorem migrate_all_counts_every_common_table (config : DatabaseConfig)
    (verbose : Bool) (fails : String → Nat → Bool) (src tgt : Database)
    (stats0 : MigrationStats) :
    (migrate_all config verbose fails src tgt stats0).stats.tables_migrated
      = stats0.tables_migrated + (commonTables src tgt).length := by
  unfold migrate_all
  have hmem : ∀ t ∈ commonTables src tgt, ∃ tb, alistGet src.tables t = some tb := by
    intro t ht
    unfold commonTables at ht
    exact get_table_names_mem src t (List.mem_filter.mp ht).1
  have hrun := runTables_counts_all config src fails (commonTables src tgt) tgt
    (recordTableDiffs stats0
      ((get_table_names src).filter (fun t => !(get_table_names tgt).contains t))
      ((get_table_names tgt).filter (fun t => !(get_table_names src).contains t)))
    hmem
  have hcd := congrArg (fun p => p.1) (statsCore_recordTableDiffs stats0
      ((get_table_names src).filter (fun t => !(get_table_names tgt).contains t))
      ((get_table_names tgt).filter (fun t => !(get_table_names src).contains t)))
  simp only [statsCore] at hcd
  simp only [hrun.2, Bool.false_eq_true, if_false]
  rw [hrun.1, hcd]

theorem selectMaster_isRead : Stmt.selectMaster.isRead = true := rfl

/-- Per-table `COUNT(*)` statements are reads. -/
theorem all_selectCount_reads (l : List String) :
    (l.map Stmt.selectCount).all Stmt.isRead = true := by
  rw [List.all_eq_true]
  intro x hx
  obtain ⟨t, _, rfl⟩ := List.mem_map.mp hx
  rfl

/-- The pre-run snapshot issues only reads on the source connection. -/
theorem print_table_counts_src_reads (src tgt : Database) :
    (print_table_counts src tgt).1.all Stmt.isRead = true := by
  unfold print_table_counts
  simp [Stmt.isRead, all_selectCount_reads]

/-- `migrate_table` issues only reads on the source connection. -/
theorem migrate_table_srcTrace_reads (config : DatabaseConfig) (src tgt : Database)
    (stats : MigrationStats) (fails : Nat → Bool) (t : String) :
    (migrate_table config src tgt stats fails t).srcTrace.all Stmt.isRead = true := by
  unfold migrate_table
  cases alistGet src.tables t with
  | none => rfl
  | some stbl =>
    dsimp only
    split
    · rfl
    · split
      · rfl
      · rfl

/-- The per-table loop issues only reads on the source connection. -/
theorem runTables_srcTrace_reads (config : DatabaseConfig) (src : Database)
    (fails : String → Nat → Bool) (ts : List String) (tgt : Database)
    (stats : MigrationStats) :
    (runTables config src fails ts tgt stats).srcTrace.all Stmt.isRead = true := by
  induction ts generalizing tgt stats with
  | nil => rfl
  | cons t rest ih =>
    have hr := migrate_table_srcTrace_reads config src tgt stats (fails t) t
    unfold runTables
    dsimp only
    split
    · exact hr
    · simp [List.all_append, hr, ih]

theorem migrate_all_source_frame (config : DatabaseConfig) (verbose : Bool)
    (fails : String → Nat → Bool) (src tgt : Database) (stats0 : MigrationStats) :
    ((migrate_all config verbose fails src tgt stats0).source = src) ∧
    ((migrate_all config verbose fails src tgt stats0).srcTrace.all Stmt.isRead
      = true) := by
  unfold migrate_all
  constructor
  · dsimp only
    split <;> rfl
  · dsimp only
    have hp := print_table_counts_src_reads src tgt
    have hr := runTables_srcTrace_reads config src fails (commonTables src tgt) tgt
      (recordTableDiffs stats0
        ((get_table_names src).filter (fun t => !(get_table_names tgt).contains t))
        ((get_table_names tgt).filter (fun t => !(get_table_names src).contains t)))
    split
    all_goals
      simp only [List.all_append, hp, hr, all_selectCount_reads, selectMaster_isRead,
        List.all_cons, List.all_nil, Bool.and_true, Bool.true_and]

/-- One common table with zero source rows, for the C4 counterexample. -/
def skipSrcDb : Database := ⟨[("person", ⟨["_id"], []⟩)], []⟩
def skipTgtDb : Database := ⟨[("person", ⟨["_id"], []⟩)], []⟩

/-- C4 counterexample: a full run over a single common table with zero
source rows ends with the table counted in BOTH counters —
`tables_migrated` is incremented even though the table was skipped. -/
theorem skipped_table_counted_as_migrated :
    ((migrate_all cfgDefault false (fun _ _ => false) skipSrcDb skipTgtDb
        initMigrationStats).stats.tables_migrated = 1) ∧
    ((migrate_all cfgDefault false (fun _ _ => false) skipSrcDb skipTgtDb
        initMigrationStats).stats.tables_skipped = 1) := by
  decide

/-- C10: no operation of the migrator writes to the source database.  The
full run returns the source database unchanged and its source-connection
trace holds only SELECT/PRAGMA statements; a standalone `migrate_table`
likewise issues only reads on the source connection, as does the row-count
snapshot.  (`update_person_villages` operates on the target connection
only: its embedding does not even receive the source database.) -/
theorem migrator_source_database_readonly (config : DatabaseConfig)
    (verbose : Bool) (fails : String → Nat → Bool) (tfails : Nat → Bool)
    (src tgt : Database) (stats0 : MigrationStats) (t : String) :
    ((migrate_all config verbose fails src tgt stats0).source = src) ∧
    ((migrate_all config verbose fails src tgt stats0).srcTrace.all Stmt.isRead
      = true) ∧
    ((migrate_table config src tgt stats0 tfails t).srcTrace.all Stmt.isRead
      = true) ∧
    ((print_table_counts src tgt).1.all Stmt.isRead = true) :=
  ⟨(migrate_all_source_frame config verbose fails src tgt stats0).1,
   (migrate_all_source_frame config verbose fails src tgt stats0).2,
   migrate_table_srcTrace_reads config src tgt stats0 tfails t,
   print_table_counts_src_reads src tgt⟩
